import Mathlib

/-!
Shallow embedding of the `annotate` repository's two data-extraction scripts,
`scripts/extract.py` (pipeline A: project point annotations onto calibrated axes)
and `scripts/measure.py` (pipeline B: measure line annotations against scale
calibrations).  Python floats are modelled by real numbers; Python exceptions are
modelled by the `Except PyErr` monad.  Definitions follow the source line by line;
the regular expressions and `float()` parsing are modelled character by character.
-/

open Classical

/-- Python exceptions that the modelled code paths can raise. -/
inductive PyErr where
  | keyError
  | typeError
  | valueError
  | zeroDivisionError
  | indexError
deriving DecidableEq

/-- The `coords` field of an input record: a single 2D point for `"point"`
records (`[x, y]` in the JSON), a pair of 2D points for `"line"` records
(`[[x0, y0], [x1, y1]]`). -/
inductive Coords where
  | pt (x y : ℝ)
  | ln (x0 y0 x1 y1 : ℝ)

/-- One input record from the annotations file: a `type` (`"point"` or
`"line"`), a `name`, coordinates and an optional `tags` list (a missing
`tags` key is `none`; reading it then raises `KeyError`). -/
structure Item where
  type : String
  name : String
  coords : Coords
  tags : Option (List String)

/-- Squared length `(r1[0]-r0[0])**2 + (r1[1]-r0[1])**2` used by both
`Axis.__init__` methods as `self.l2`. -/
def sqLen (r0 r1 : ℝ × ℝ) : ℝ := (r1.1 - r0.1) ^ 2 + (r1.2 - r0.2) ^ 2

/-- Model of the regex class `\w` (ASCII fragment: letters, digits, underscore). -/
def isWordChar (c : Char) : Bool := c.isAlphanum || c == '_'

/-- Model of the regex class `\s` (space, tab, newline, carriage return,
vertical tab, form feed). -/
def isSpaceChar (c : Char) : Bool :=
  c == ' ' || c == '\t' || c == '\n' || c == '\r' || c == '\x0b' || c == '\x0c'

/-- Model of the numeric-token character class `[\d.efg+-]` used by both
calibration regexes. -/
def isTokChar (c : Char) : Bool :=
  c.isDigit || c == '.' || c == 'e' || c == 'f' || c == 'g' || c == '+' || c == '-'

/-- Model of `re.match` for the axis pattern
`(?P<name>\w+):\s*(?P<a>[\d.efg+-]+)\s+(?P<b>[\d.efg+-]+)\s*(?P<islog>L?)`
from `extract.py`.  `re.match` anchors at the start only, so trailing content is
ignored.  Greedy left-to-right matching without backtracking is exact here: each
pair of adjacent pattern elements has disjoint character classes, and the
pattern tail after the second token (`\s*L?`) always matches. -/
def axisMatch (s : String) : Option (String × String × String × Bool) :=
  match s.toList.span isWordChar with
  | (nm, rest) =>
    if nm.isEmpty then none else
    match rest with
    | ':' :: rest1 =>
      let rest2 := rest1.dropWhile isSpaceChar
      match rest2.span isTokChar with
      | (ta, rest3) =>
        if ta.isEmpty then none else
        match rest3.span isSpaceChar with
        | (sp, rest4) =>
          if sp.isEmpty then none else
          match rest4.span isTokChar with
          | (tb, rest5) =>
            if tb.isEmpty then none else
            let rest6 := rest5.dropWhile isSpaceChar
            let lg : Bool := match rest6 with | 'L' :: _ => true | _ => false
            some (String.mk nm, String.mk ta, String.mk tb, lg)
    | _ => none

/-- Model of `re.match` for the scale pattern
`(?P<name>\w+):\s*(?P<length>[\d.efg+-]+)` from `measure.py`. -/
def scaleMatch (s : String) : Option (String × String) :=
  match s.toList.span isWordChar with
  | (nm, rest) =>
    if nm.isEmpty then none else
    match rest with
    | ':' :: rest1 =>
      let rest2 := rest1.dropWhile isSpaceChar
      match rest2.span isTokChar with
      | (tl, _) =>
        if tl.isEmpty then none else some (String.mk nm, String.mk tl)
    | _ => none

/-- Decimal digits read as a natural number. -/
def digitsToNat (ds : List Char) : Nat := ds.foldl (fun n c => 10 * n + (c.toNat - 48)) 0

/-- Consume an optional leading sign, returning the sign and the remainder. -/
def takeSign : List Char → Int × List Char
  | '+' :: cs => (1, cs)
  | '-' :: cs => (-1, cs)
  | cs => (1, cs)

/-- Model of CPython `float(s)` restricted to strings over the characters the
calibration regexes can produce (digits, `.`, `e`, `f`, `g`, `+`, `-`; no
whitespace, underscores, `inf` or `nan` are expressible there).  Returns the
exact decimal value as a rational when the string is a valid float literal
`[sign] (digits [. digits*] | . digits) [(e|E) [sign] digits]`, and `none`
(a `ValueError`) otherwise. -/
def pyfloatQ (s : String) : Option ℚ :=
  match takeSign s.toList with
  | (sg, cs1) =>
    match cs1.span Char.isDigit with
    | (ip, cs2) =>
      let hasDot : Bool := match cs2 with | '.' :: _ => true | _ => false
      match (if hasDot then cs2.tail.span Char.isDigit else ([], cs2)) with
      | (fp, cs3) =>
        if ip.isEmpty && fp.isEmpty then none else
        let k := fp.length
        let mnum : ℤ := sg * ((digitsToNat ip : ℤ) * 10 ^ k + (digitsToNat fp : ℤ))
        match cs3 with
        | [] => some (mkRat mnum (10 ^ k))
        | 'e' :: cs4 =>
          match takeSign cs4 with
          | (esg, cs5) =>
            match cs5.span Char.isDigit with
            | (ed, cs6) =>
              if ed.isEmpty || !cs6.isEmpty then none
              else
                let e := digitsToNat ed
                if esg = 1 then some (mkRat (mnum * 10 ^ e) (10 ^ k))
                else some (mkRat mnum (10 ^ k * 10 ^ e))
        | _ => none

/-- Model of a Python `dict` with string keys as an association list with
unique keys: assignment `d[k] = v` keeps the position of an existing key and
appends a new key at the end (insertion order). -/
def dinsert {α : Type} (k : String) (v : α) : List (String × α) → List (String × α)
  | [] => [(k, v)]
  | (k1, v1) :: d => if k1 = k then (k1, v) :: d else (k1, v1) :: dinsert k v d

/-- Model of Python `d[k]` lookup (`none` is a `KeyError`). -/
def dget {α : Type} (k : String) : List (String × α) → Option α
  | [] => none
  | (k1, v1) :: d => if k1 = k then some v1 else dget k d

/-- Model of `d[k].append(x)` on a dict of lists (`none` is a `KeyError`). -/
def dappend {α : Type} (k : String) (x : α) :
    List (String × List α) → Option (List (String × List α))
  | [] => none
  | (k1, l1) :: d =>
    if k1 = k then some ((k1, l1 ++ [x]) :: d)
    else (dappend k x d).map (fun d1 => (k1, l1) :: d1)

/-- The column mapping built by both `extract` functions: calibration name to
the list of output values, in input order. -/
abbrev Col := List (String × List ℝ)

/-- Insert a string into a `≤`-sorted list of strings. -/
def insertStr (s : String) : List String → List String
  | [] => [s]
  | t :: ts => if s ≤ t then s :: t :: ts else t :: insertStr s ts

/-- Model of Python `list.sort()` on strings (lexicographic by code point). -/
def sortStrings (l : List String) : List String := l.foldr insertStr []

/-- The `csv_sanitize` helper defined identically in both scripts: wrap a
field in double quotes when it contains a comma, otherwise return it as is. -/
def csv_sanitize (s : String) : String :=
  if s.toList.contains ',' then "\"" ++ s ++ "\"" else s

/-- One CSV cell `col[k][i]`: `KeyError` if the key is missing, `IndexError`
if the column is too short, else the serialized value (`fr` stands for the
`repr`/`str` float formatting, which is not modelled further since the output
format of a float carries no commas or quotes). -/
def cellStr (fr : ℝ → String) (col : Col) (i : Nat) (k : String) : Except PyErr String :=
  match dget k col with
  | none => .error .keyError
  | some l =>
    match l.get? i with
    | none => .error .indexError
    | some v => .ok (fr v)

/-- Model of the test `if tag and tag not in item["tags"]: continue` shared by
both `extract` functions.  With the default empty tag the condition
short-circuits and `tags` is never read; with a non-empty tag a missing `tags`
key raises `KeyError`, else the result says whether the item is skipped. -/
def tagSkip (tag : String) (it : Item) : Except PyErr Bool :=
  if tag = "" then .ok false
  else
    match it.tags with
    | none => .error .keyError
    | some ts => .ok (!ts.contains tag)

namespace ExtractPy

/-- The `Axis` class of `extract.py`: endpoints, displacement, squared and
plain length, and calibration bounds (log-transformed when `islog`). -/
structure Axis where
  name : String
  r0 : ℝ × ℝ
  r1 : ℝ × ℝ
  islog : Bool
  delta : ℝ × ℝ
  l2 : ℝ
  l : ℝ
  a : ℝ
  b : ℝ

/-- `Axis.__init__` of `extract.py`.  `math.log` raises `ValueError` on a
non-positive argument, so construction of a log axis fails for `a ≤ 0` or
`b ≤ 0`; otherwise construction always succeeds (no division happens here). -/
noncomputable def Axis.init (name : String) (r0 r1 : ℝ × ℝ) (a b : ℝ) (islog : Bool) : Except PyErr Axis :=
  match islog with
  | false =>
    .ok ⟨name, r0, r1, false, (r1.1 - r0.1, r1.2 - r0.2), sqLen r0 r1,
      Real.sqrt (sqLen r0 r1), a, b⟩
  | true =>
    if a ≤ 0 ∨ b ≤ 0 then .error .valueError
    else
      .ok ⟨name, r0, r1, true, (r1.1 - r0.1, r1.2 - r0.2), sqLen r0 r1,
        Real.sqrt (sqLen r0 r1), Real.log a, Real.log b⟩

/-- `getaxes` of `extract.py`: scan line records, parse names against the axis
regex, convert the two numeric groups with `float` (a failure is a
`ValueError`), and build one `Axis` per match, in input order.  Accessing the
two endpoint coordinates of a record whose `coords` is a single point raises
`TypeError` (a float is not subscriptable). -/
noncomputable def getaxes : List Item → Except PyErr (List Axis)
  | [] => .ok []
  | it :: rest =>
    if it.type = "line" then
      match axisMatch it.name with
      | none => getaxes rest
      | some (nm, sa, sb, lg) =>
        match pyfloatQ sa, pyfloatQ sb with
        | some qa, some qb =>
          match it.coords with
          | .ln x0 y0 x1 y1 =>
            match Axis.init nm (x0, y0) (x1, y1) (qa : ℝ) (qb : ℝ) lg with
            | .error e => .error e
            | .ok ax => (getaxes rest).map (fun axs => ax :: axs)
          | .pt _ _ => .error .typeError
        | _, _ => .error .valueError
    else getaxes rest

/-- The per-axis body of the point loop in `extract.py`'s `extract`:
`v = ax.a + (ax.b - ax.a) * ((c[0]-ax.r0[0])*ax.delta[0] + (c[1]-ax.r0[1])*ax.delta[1]) / ax.l2`,
raising `ZeroDivisionError` when `ax.l2 == 0`, then `v = math.exp(v)` when the
axis is log-scaled. -/
noncomputable def project (ax : Axis) (c : ℝ × ℝ) : Except PyErr ℝ :=
  if ax.l2 = 0 then .error .zeroDivisionError
  else
    let v := ax.a + (ax.b - ax.a) *
      ((c.1 - ax.r0.1) * ax.delta.1 + (c.2 - ax.r0.2) * ax.delta.2) / ax.l2
    .ok (if ax.islog then Real.exp v else v)

/-- The dict comprehension `{ax.name: [] for ax in axes}`. -/
def initCol (axes : List Axis) : Col :=
  axes.foldl (fun d ax => dinsert ax.name [] d) []

/-- The inner loop `for ax in axes: ... col[ax.name].append(v)` for one point. -/
noncomputable def projPoint (c : ℝ × ℝ) : List Axis → Col → Except PyErr Col
  | [], col => .ok col
  | ax :: axs, col =>
    match project ax c with
    | .error e => .error e
    | .ok v =>
      match dappend ax.name v col with
      | none => .error .keyError
      | some col1 => projPoint c axs col1

/-- The record loop of `extract.py`'s `extract`, threading the column dict. -/
noncomputable def extractGo (axes : List Axis) (tag : String) : List Item → Col → Except PyErr Col
  | [], col => .ok col
  | it :: rest, col =>
    if it.type = "point" then
      match tagSkip tag it with
      | .error e => .error e
      | .ok true => extractGo axes tag rest col
      | .ok false =>
        match it.coords with
        | .pt x y =>
          match projPoint (x, y) axes col with
          | .error e => .error e
          | .ok col1 => extractGo axes tag rest col1
        | .ln _ _ _ _ => .error .typeError
    else extractGo axes tag rest col

/-- `extract` of `extract.py`. -/
noncomputable def extract (data : List Item) (axes : List Axis) (tag : String) : Except PyErr Col :=
  extractGo axes tag data (initCol axes)

/-- One data row of `export` in `extract.py`:
`",".join(repr(col[k][i]) for k in keys) + "\n"`. -/
def rowStr (fr : ℝ → String) (col : Col) (keys : List String) (i : Nat) :
    Except PyErr String :=
  (keys.mapM (cellStr fr col i)).map (fun cs => String.intercalate "," cs ++ "\n")

/-- `export` of `extract.py`: nothing at all is written when the key set is
empty; otherwise a header of sorted, comma-sanitized column names followed by
`len(col[keys[0]])` data rows. -/
def exportCsv (fr : ℝ → String) (col : Col) : Except PyErr String :=
  match sortStrings (col.map (fun p => p.1)) with
  | [] => .ok ""
  | k0 :: ks =>
    let keys := k0 :: ks
    let header := String.intercalate "," (keys.map csv_sanitize) ++ "\n"
    match dget k0 col with
    | none => .error .keyError
    | some l0 =>
      ((List.range l0.length).mapM (rowStr fr col keys)).map
        (fun rs => header ++ String.join rs)

end ExtractPy

namespace MeasurePy

/-- The `Axis` class of `measure.py` (a scale calibration). -/
structure Axis where
  name : String
  r0 : ℝ × ℝ
  r1 : ℝ × ℝ
  delta : ℝ × ℝ
  l2 : ℝ
  l : ℝ
  physlen : ℝ
  unitperpx : ℝ

/-- `Axis.__init__` of `measure.py`.  Unlike the `extract.py` variant, this
constructor itself divides: `self.unitperpx = self.physlen / self.l`, so a
degenerate line (`l == 0`) raises `ZeroDivisionError` at construction time. -/
noncomputable def Axis.init (name : String) (r0 r1 : ℝ × ℝ) (physlen : ℝ) : Except PyErr Axis :=
  if Real.sqrt (sqLen r0 r1) = 0 then .error .zeroDivisionError
  else
    .ok ⟨name, r0, r1, (r1.1 - r0.1, r1.2 - r0.2), sqLen r0 r1,
      Real.sqrt (sqLen r0 r1), physlen, physlen / Real.sqrt (sqLen r0 r1)⟩

/-- `getscales` of `measure.py`: scan line records against the scale regex and
build one scale per match, in input order. -/
noncomputable def getscales : List Item → Except PyErr (List Axis)
  | [] => .ok []
  | it :: rest =>
    if it.type = "line" then
      match scaleMatch it.name with
      | none => getscales rest
      | some (nm, sl) =>
        match pyfloatQ sl with
        | some ql =>
          match it.coords with
          | .ln x0 y0 x1 y1 =>
            match Axis.init nm (x0, y0) (x1, y1) (ql : ℝ) with
            | .error e => .error e
            | .ok sc => (getscales rest).map (fun scs => sc :: scs)
          | .pt _ _ => .error .typeError
        | none => .error .valueError
    else getscales rest

/-- Pixel length of a measured line:
`math.sqrt((c[1][0]-c[0][0])**2 + (c[1][1]-c[0][1])**2)`. -/
noncomputable def lineLen (x0 y0 x1 y1 : ℝ) : ℝ := Real.sqrt ((x1 - x0) ^ 2 + (y1 - y0) ^ 2)

/-- The dict comprehension `{sc.name: [] for sc in scales}`. -/
def initCol (scales : List Axis) : Col :=
  scales.foldl (fun d sc => dinsert sc.name [] d) []

/-- The inner loop `for sc in scales: ... col[sc.name].append(v)` with
`v = lineLen * sc.unitperpx` for one measured line.  No division happens here. -/
noncomputable def measureGo (x0 y0 x1 y1 : ℝ) : List Axis → Col → Option Col
  | [], col => some col
  | sc :: scs, col =>
    match dappend sc.name (lineLen x0 y0 x1 y1 * sc.unitperpx) col with
    | none => none
    | some col1 => measureGo x0 y0 x1 y1 scs col1

/-- The record loop of `measure.py`'s `extract`, threading the name list and
the column dict.  Every `"line"` record passing the tag filter is processed,
whether or not its name matches the calibration grammar. -/
noncomputable def extractGo (scales : List Axis) (tag : String) :
    List Item → List String × Col → Except PyErr (List String × Col)
  | [], acc => .ok acc
  | it :: rest, acc =>
    if it.type = "line" then
      match tagSkip tag it with
      | .error e => .error e
      | .ok true => extractGo scales tag rest acc
      | .ok false =>
        match it.coords with
        | .ln x0 y0 x1 y1 =>
          match measureGo x0 y0 x1 y1 scales acc.2 with
          | none => .error .keyError
          | some col1 => extractGo scales tag rest (acc.1 ++ [it.name], col1)
        | .pt _ _ => .error .typeError
    else extractGo scales tag rest acc

/-- `extract` of `measure.py`: returns the list of qualifying line names and
the column mapping. -/
noncomputable def extract (data : List Item) (scales : List Axis) (tag : String) :
    Except PyErr (List String × Col) :=
  extractGo scales tag data ([], initCol scales)

/-- One data row of `export` in `measure.py`:
`names[i] + "," + ",".join(str(col[k][i]) for k in keys) + "\n"`.
The row name is written raw, without `csv_sanitize`. -/
def rowStr (fr : ℝ → String) (names : List String) (col : Col) (keys : List String)
    (i : Nat) : Except PyErr String :=
  match names.get? i with
  | none => .error .indexError
  | some nm =>
    (keys.mapM (cellStr fr col i)).map
      (fun cs => nm ++ "," ++ String.intercalate "," cs ++ "\n")

/-- `export` of `measure.py`: nothing is written when the key set is empty;
otherwise a `name` column is prepended to the sorted, sanitized header, and
each data row starts with the recorded line name. -/
def exportCsv (fr : ℝ → String) (names : List String) (col : Col) : Except PyErr String :=
  match sortStrings (col.map (fun p => p.1)) with
  | [] => .ok ""
  | k0 :: ks =>
    let keys := k0 :: ks
    let header := "name" ++ "," ++ String.intercalate "," (keys.map csv_sanitize) ++ "\n"
    match dget k0 col with
    | none => .error .keyError
    | some l0 =>
      ((List.range l0.length).mapM (rowStr fr names col keys)).map
        (fun rs => header ++ String.join rs)

end MeasurePy

example : axisMatch "X: 0 1" = some ("X", "0", "1", false) := by decide
example : axisMatch "Y2: -1.5e3 2.0 L" = some ("Y2", "-1.5e3", "2.0", true) := by decide
example : axisMatch "a plain label" = none := by decide
example : scaleMatch "S: 10" = some ("S", "10") := by decide
example : pyfloatQ "0" = some 0 := by decide
example : pyfloatQ "-1.5e3" = some (-1500) := by decide
example : pyfloatQ "f" = none := by decide
example : pyfloatQ ".." = none := by decide
example : pyfloatQ "1." = some 1 := by decide
example : pyfloatQ ".5" = some (mkRat 1 2) := by decide
example : pyfloatQ "1e" = none := by decide
example : pyfloatQ "2.5e-1" = some (mkRat 1 4) := by decide

/-- First of two calibration lines sharing the name `X`. -/
def dupLine1 : Item := ⟨"line", "X: 0 1", .ln 0 0 10 0, none⟩

/-- Second calibration line, also named `X`. -/
def dupLine2 : Item := ⟨"line", "X: 5 9", .ln 0 0 0 10, none⟩

/-- One point record, qualifying for extraction. -/
def dupPoint : Item := ⟨"point", "p", .pt 3 4, none⟩

/-- Input with two calibration lines sharing the name `X` and one point. -/
def dupData : List Item := [dupLine1, dupLine2, dupPoint]

/-- The axis parsed from `dupLine1`. -/
noncomputable def axA : ExtractPy.Axis :=
  ⟨"X", (0, 0), (10, 0), false, ((10:ℝ) - 0, (0:ℝ) - 0), sqLen (0, 0) (10, 0),
    Real.sqrt (sqLen (0, 0) (10, 0)), ((0:ℚ) : ℝ), ((1:ℚ) : ℝ)⟩

/-- The axis parsed from `dupLine2`. -/
noncomputable def axB : ExtractPy.Axis :=
  ⟨"X", (0, 0), (0, 10), false, ((0:ℝ) - 0, (10:ℝ) - 0), sqLen (0, 0) (0, 10),
    Real.sqrt (sqLen (0, 0) (0, 10)), ((5:ℚ) : ℝ), ((9:ℚ) : ℝ)⟩

/-- The scale parsed from a line named `"S: 10"` with endpoints `(0,0)`, `(5,0)`. -/
noncomputable def scS : MeasurePy.Axis :=
  ⟨"S", (0, 0), (5, 0), ((5:ℝ) - 0, (0:ℝ) - 0), sqLen (0, 0) (5, 0),
    Real.sqrt (sqLen (0, 0) (5, 0)), 10, 10 / Real.sqrt (sqLen (0, 0) (5, 0))⟩

/-- Erase the `tags` field of a record (used to state that with no tag filter
the `tags` field is never read). -/
def stripTags (it : Item) : Item := ⟨it.type, it.name, it.coords, none⟩

/-- Unfolded form of `project` for a non-degenerate axis. -/
theorem project_eq_of_l2_ne_zero (ax : ExtractPy.Axis) (c : ℝ × ℝ) (h : ax.l2 ≠ 0) :
    ExtractPy.project ax c = .ok (if ax.islog then
      Real.exp (ax.a + (ax.b - ax.a) *
        ((c.1 - ax.r0.1) * ax.delta.1 + (c.2 - ax.r0.2) * ax.delta.2) / ax.l2)
    else ax.a + (ax.b - ax.a) *
        ((c.1 - ax.r0.1) * ax.delta.1 + (c.2 - ax.r0.2) * ax.delta.2) / ax.l2) := by
  rw [ExtractPy.project, if_neg h]

/-- C1: for every non-log axis calibration with non-degenerate endpoints
(`l2 > 0`) the projector maps a point `c` to
`a + (b - a) * (((c - r0) . (r1 - r0)) / l2)`, with no clamping of the
projection parameter; in particular with `r0=(0,0)`, `r1=(10,0)`, `a=0`,
`b=100` the points `(5,0)`, `(0,0)`, `(10,0)` and `(20,0)` project to `50`,
`0`, `100` and `200`. -/
theorem c1_linear_projection :
    (∀ (name : String) (r0 r1 c : ℝ × ℝ) (a b : ℝ), 0 < sqLen r0 r1 →
      ∃ ax, ExtractPy.Axis.init name r0 r1 a b false = .ok ax ∧
        ExtractPy.project ax c = .ok (a + (b - a) *
          (((c.1 - r0.1) * (r1.1 - r0.1) + (c.2 - r0.2) * (r1.2 - r0.2)) / sqLen r0 r1))) ∧
    (∃ ax, ExtractPy.Axis.init "X" (0, 0) (10, 0) 0 100 false = .ok ax ∧
      ExtractPy.project ax (5, 0) = .ok 50 ∧
      ExtractPy.project ax (0, 0) = .ok 0 ∧
      ExtractPy.project ax (10, 0) = .ok 100 ∧
      ExtractPy.project ax (20, 0) = .ok 200) := by
  constructor
  · intro name r0 r1 c a b h
    refine ⟨_, rfl, ?_⟩
    rw [project_eq_of_l2_ne_zero _ _ h.ne']
    simp [mul_div_assoc]
  · refine ⟨_, rfl, ?_, ?_, ?_, ?_⟩ <;>
    · rw [project_eq_of_l2_ne_zero _ _ (by norm_num [sqLen])]
      norm_num [sqLen]

/-- Witness for C1 at a concrete non-degenerate linear axis. -/
theorem c1_witness :
    ∃ ax, ExtractPy.Axis.init "W" (0, 0) (2, 0) 1 3 false = .ok ax ∧
      ExtractPy.project ax (1, 1) = .ok (1 + (3 - 1) *
        ((((1:ℝ) - 0) * (2 - 0) + (1 - 0) * (0 - 0)) / sqLen (0, 0) (2, 0))) :=
  c1_linear_projection.1 "W" (0, 0) (2, 0) (1, 1) 1 3 (by norm_num [sqLen])

/-- C2: for every log axis calibration (with positive bounds, else `math.log`
itself raises), construction stores `log a` and `log b` as the calibration
bounds and the projector applies `exp` to the linearly interpolated value; in
particular for `a=1`, `b=100` over `r0=(0,0)`, `r1=(10,0)` the point `(5,0)`
(`t=0.5`) projects to `10`, the geometric midpoint of `1` and `100`. -/
theorem c2_log_axis :
    (∀ (name : String) (r0 r1 : ℝ × ℝ) (a b : ℝ), 0 < a → 0 < b →
      ∃ ax, ExtractPy.Axis.init name r0 r1 a b true = .ok ax ∧
        ax.a = Real.log a ∧ ax.b = Real.log b ∧
        ∀ c : ℝ × ℝ, sqLen r0 r1 ≠ 0 →
          ExtractPy.project ax c = .ok (Real.exp (Real.log a + (Real.log b - Real.log a) *
            ((c.1 - r0.1) * (r1.1 - r0.1) + (c.2 - r0.2) * (r1.2 - r0.2)) / sqLen r0 r1))) ∧
    (∃ ax, ExtractPy.Axis.init "X" (0, 0) (10, 0) 1 100 true = .ok ax ∧
      ExtractPy.project ax (5, 0) = .ok 10) := by
  constructor
  · intro name r0 r1 a b ha hb
    rw [ExtractPy.Axis.init]
    rw [if_neg (by push_neg; exact ⟨ha, hb⟩)]
    refine ⟨_, rfl, rfl, rfl, ?_⟩
    intro c hl
    rw [project_eq_of_l2_ne_zero _ _ hl]
    rfl
  · have hinit : ExtractPy.Axis.init "X" (0, 0) (10, 0) 1 100 true =
        .ok ⟨"X", (0, 0), (10, 0), true, ((10:ℝ) - 0, (0:ℝ) - 0), sqLen (0, 0) (10, 0),
          Real.sqrt (sqLen (0, 0) (10, 0)), Real.log 1, Real.log 100⟩ := by
      rw [ExtractPy.Axis.init, if_neg (by push_neg; norm_num)]
    refine ⟨_, hinit, ?_⟩
    rw [project_eq_of_l2_ne_zero _ _ (by norm_num [sqLen])]
    have harg : Real.log 1 + (Real.log 100 - Real.log 1) *
        (((5:ℝ) - 0) * (10 - 0) + (0 - 0) * (0 - 0)) / sqLen (0, 0) (10, 0) =
        Real.log 10 := by
      have h100 : Real.log (100:ℝ) = 2 * Real.log 10 := by
        rw [show (100:ℝ) = 10 ^ 2 by norm_num, Real.log_pow]
        push_cast
        ring
      rw [Real.log_one, h100]
      have : sqLen ((0:ℝ), (0:ℝ)) (10, 0) = 100 := by norm_num [sqLen]
      rw [this]
      ring
    simp only [if_true]
    rw [harg, Real.exp_log (by norm_num)]

/-- Witness for C2 at a concrete positive-bounds log axis. -/
theorem c2_witness :
    ∃ ax, ExtractPy.Axis.init "W" (0, 0) (0, 2) 2 8 true = .ok ax ∧
      ExtractPy.project ax (0, 1) = .ok (Real.exp (Real.log 2 + (Real.log 8 - Real.log 2) *
        (((0:ℝ) - 0) * (0 - 0) + (1 - 0) * (2 - 0)) / sqLen (0, 0) (0, 2))) := by
  obtain ⟨ax, h1, _, _, h4⟩ :=
    c2_log_axis.1 "W" (0, 0) (0, 2) 2 8 (by norm_num) (by norm_num)
  exact ⟨ax, h1, h4 (0, 1) (by norm_num [sqLen])⟩

/-- C3: for every scale calibration built from a line with endpoints `r0`, `r1`
(non-degenerate) and physical length `physlen`, `unitperpx = physlen / |r1 - r0|`,
and every qualifying measured line with endpoints `c0`, `c1` yields
`|c1 - c0| * unitperpx`; in particular `r0=(0,0)`, `r1=(5,0)`, `physlen=10`
gives `unitperpx=2` and a measured line of pixel length `5` yields `10`. -/
theorem c3_scale_measurement :
    (∀ (name : String) (r0 r1 : ℝ × ℝ) (physlen : ℝ), 0 < sqLen r0 r1 →
      ∃ sc, MeasurePy.Axis.init name r0 r1 physlen = .ok sc ∧
        sc.unitperpx = physlen / Real.sqrt (sqLen r0 r1) ∧
        ∀ (nm : String) (tags : Option (List String)) (x0 y0 x1 y1 : ℝ),
          MeasurePy.extract [⟨"line", nm, .ln x0 y0 x1 y1, tags⟩] [sc] "" =
            .ok ([nm], [(name, [MeasurePy.lineLen x0 y0 x1 y1 * sc.unitperpx])])) ∧
    (∃ sc, MeasurePy.Axis.init "S" (0, 0) (5, 0) 10 = .ok sc ∧
      sc.unitperpx = 2 ∧
      MeasurePy.extract [⟨"line", "m", .ln 0 0 0 5, none⟩] [sc] "" =
        .ok (["m"], [("S", [10])])) := by
  have hsqrt5 : Real.sqrt (sqLen ((0:ℝ), (0:ℝ)) (5, 0)) = 5 := by
    have : sqLen ((0:ℝ), (0:ℝ)) (5, 0) = 5 ^ 2 := by norm_num [sqLen]
    rw [this, Real.sqrt_sq (by norm_num)]
  constructor
  · intro name r0 r1 physlen h
    have hl : Real.sqrt (sqLen r0 r1) ≠ 0 := by
      have := Real.sqrt_pos.mpr h
      exact this.ne'
    rw [MeasurePy.Axis.init, if_neg hl]
    refine ⟨_, rfl, rfl, ?_⟩
    intro nm tags x0 y0 x1 y1
    simp [MeasurePy.extract, MeasurePy.extractGo, MeasurePy.initCol, MeasurePy.measureGo,
      dinsert, dappend, tagSkip]
  · have hinit : MeasurePy.Axis.init "S" (0, 0) (5, 0) 10 =
        .ok ⟨"S", (0, 0), (5, 0), ((5:ℝ) - 0, (0:ℝ) - 0), sqLen (0, 0) (5, 0),
          Real.sqrt (sqLen (0, 0) (5, 0)), 10, 10 / Real.sqrt (sqLen (0, 0) (5, 0))⟩ := by
      rw [MeasurePy.Axis.init, if_neg (by rw [hsqrt5]; norm_num)]
    have hupp : (10:ℝ) / Real.sqrt (sqLen (0, 0) (5, 0)) = 2 := by
      rw [hsqrt5]; norm_num
    refine ⟨_, hinit, hupp, ?_⟩
    have hlen : MeasurePy.lineLen 0 0 0 5 = 5 := by
      have : ((0:ℝ) - 0) ^ 2 + ((5:ℝ) - 0) ^ 2 = 5 ^ 2 := by norm_num
      rw [MeasurePy.lineLen, this, Real.sqrt_sq (by norm_num)]
    simp [MeasurePy.extract, MeasurePy.extractGo, MeasurePy.initCol, MeasurePy.measureGo,
      dinsert, dappend, tagSkip, hlen, hupp]
    rw [show sqLen (0:ℝ×ℝ) ((5:ℝ), 0) = 5 ^ 2 by norm_num [sqLen],
      Real.sqrt_sq (by norm_num)]
    norm_num

/-- Witness for C3 at a concrete non-degenerate scale. -/
theorem c3_witness :
    ∃ sc, MeasurePy.Axis.init "T" (0, 0) (0, 3) 6 = .ok sc ∧
      sc.unitperpx = 6 / Real.sqrt (sqLen (0, 0) (0, 3)) ∧
      MeasurePy.extract [⟨"line", "q", .ln 0 0 1 1, none⟩] [sc] "" =
        .ok (["q"], [("T", [MeasurePy.lineLen 0 0 1 1 * sc.unitperpx])]) := by
  obtain ⟨sc, h1, h2, h3⟩ :=
    c3_scale_measurement.1 "T" (0, 0) (0, 3) 6 (by norm_num [sqLen])
  exact ⟨sc, h1, h2, h3 "q" none 0 0 1 1⟩

/-- C4 counterexample: the line name `"A: f f"` matches the calibration
grammar (the token class `[\d.efg+-]` accepts `"f"`), but `float("f")` raises
`ValueError`, so the calibration parser raises on this entry instead of never
raising. -/
theorem c4_counterexample :
    axisMatch "A: f f" = some ("A", "f", "f", false) ∧
    pyfloatQ "f" = none ∧
    ExtractPy.getaxes [⟨"line", "A: f f", .ln 0 0 1 1, none⟩] = .error .valueError :=
  ⟨by decide, by decide, rfl⟩

/-- C4 amended: an entry whose name does not match the grammar is silently
skipped and treated as an ordinary line; but the grammar's numeric-token class
`[\d.efg+-]+` also accepts tokens that do not parse as floats, and a matching
entry with such a token raises `ValueError`; when both tokens do parse as
floats the axis is constructed without error. -/
theorem c4_amended :
    (∀ (nm : String) (co : Coords) (tags : Option (List String)) (rest : List Item),
      axisMatch nm = none →
      ExtractPy.getaxes (⟨"line", nm, co, tags⟩ :: rest) = ExtractPy.getaxes rest) ∧
    (∀ (nm na nb : String) (lg : Bool) (x0 y0 x1 y1 : ℝ)
        (tags : Option (List String)) (n2 : String),
      axisMatch n2 = some (nm, na, nb, lg) → pyfloatQ na = none →
      ExtractPy.getaxes [⟨"line", n2, .ln x0 y0 x1 y1, tags⟩] = .error .valueError) ∧
    (∀ (nm na nb : String) (x0 y0 x1 y1 : ℝ) (tags : Option (List String))
        (n2 : String) (qa qb : ℚ),
      axisMatch n2 = some (nm, na, nb, false) → pyfloatQ na = some qa → pyfloatQ nb = some qb →
      ExtractPy.getaxes [⟨"line", n2, .ln x0 y0 x1 y1, tags⟩] =
        .ok [⟨nm, (x0, y0), (x1, y1), false, (x1 - x0, y1 - y0), sqLen (x0, y0) (x1, y1),
          Real.sqrt (sqLen (x0, y0) (x1, y1)), (qa : ℝ), (qb : ℝ)⟩]) := by
  refine ⟨?_, ?_, ?_⟩
  · intro nm co tags rest hmatch
    simp [ExtractPy.getaxes, hmatch]
  · intro nm na nb lg x0 y0 x1 y1 tags n2 hmatch hfa
    simp [ExtractPy.getaxes, hmatch, hfa]
  · intro nm na nb x0 y0 x1 y1 tags n2 qa qb hmatch hqa hqb
    simp [ExtractPy.getaxes, hmatch, hqa, hqb, ExtractPy.Axis.init, sqLen]
    rfl

/-- Witness for C4 amended, at a skipped plain label, a grammar-matching entry
with a non-float token, and a grammar-matching entry with float tokens. -/
theorem c4_witness :
    ExtractPy.getaxes [⟨"line", "no calib", .ln 0 0 1 1, none⟩] = ExtractPy.getaxes [] ∧
    ExtractPy.getaxes [⟨"line", "B: g g", .ln 0 0 1 1, none⟩] = .error .valueError ∧
    ExtractPy.getaxes [⟨"line", "A: 1 2", .ln 0 0 1 1, none⟩] =
      .ok [⟨"A", (0, 0), (1, 1), false, ((1:ℝ) - 0, (1:ℝ) - 0), sqLen (0, 0) (1, 1),
        Real.sqrt (sqLen (0, 0) (1, 1)), ((1:ℚ) : ℝ), ((2:ℚ) : ℝ)⟩] :=
  ⟨c4_amended.1 "no calib" _ _ _ (by decide),
   c4_amended.2.1 "B" "g" "g" false 0 0 1 1 none "B: g g" (by decide) (by decide),
   c4_amended.2.2 "A" "1" "2" 0 0 1 1 none "A: 1 2" 1 2 (by decide) (by decide) (by decide)⟩

/-- Records that are not points are skipped by the point loop. -/
theorem extractGo_append_skips (axes : List ExtractPy.Axis) (tag : String)
    (pre rest : List Item) (col : Col) (hpre : ∀ it ∈ pre, it.type ≠ "point") :
    ExtractPy.extractGo axes tag (pre ++ rest) col = ExtractPy.extractGo axes tag rest col := by
  induction pre with
  | nil => rfl
  | cons it pre ih =>
    have hit : it.type ≠ "point" := hpre it (List.mem_cons_self it pre)
    have hrest : ∀ it2 ∈ pre, it2.type ≠ "point" := fun it2 h2 => hpre it2 (List.mem_cons_of_mem it h2)
    rw [List.cons_append, ExtractPy.extractGo, if_neg hit]
    exact ih hrest

/-- Processing one point against two axes sharing a name appends both values
to the single shared column. -/
theorem extract_point_dup_col (ax1 ax2 : ExtractPy.Axis) (x y v1 v2 : ℝ) (nm : String)
    (tags : Option (List String)) (pre : List Item) (hpre : ∀ it ∈ pre, it.type ≠ "point")
    (hname : ax2.name = ax1.name)
    (hp1 : ExtractPy.project ax1 (x, y) = .ok v1)
    (hp2 : ExtractPy.project ax2 (x, y) = .ok v2) :
    ExtractPy.extract (pre ++ [⟨"point", nm, .pt x y, tags⟩]) [ax1, ax2] "" =
      .ok [(ax1.name, [v1, v2])] := by
  rw [ExtractPy.extract, extractGo_append_skips _ _ _ _ _ hpre]
  simp [ExtractPy.extractGo, ExtractPy.initCol, ExtractPy.projPoint, dinsert, dappend,
    tagSkip, hname, hp1, hp2]

/-- C5 counterexample: with two calibration lines both named `X` and one
point, the parser does keep both axes, but the extracted output holds a single
column named `X` with two values for the one point — not two `X` columns with
one value each as the claim states. -/
theorem c5_counterexample :
    (ExtractPy.getaxes dupData).map (fun axs => axs.map ExtractPy.Axis.name) = .ok ["X", "X"] ∧
    ((ExtractPy.getaxes dupData).bind (fun axs => ExtractPy.extract dupData axs "")).map
        (fun col => col.map (fun p => (p.1, p.2.length))) = .ok [("X", 2)] := by
  constructor
  · rfl
  · have hax : ExtractPy.getaxes dupData = .ok [axA, axB] := rfl
    have hA : axA.l2 ≠ 0 := by
      show sqLen ((0:ℝ), (0:ℝ)) (10, 0) ≠ 0
      norm_num [sqLen]
    have hB : axB.l2 ≠ 0 := by
      show sqLen ((0:ℝ), (0:ℝ)) (0, 10) ≠ 0
      norm_num [sqLen]
    obtain ⟨vA, hpA⟩ : ∃ v, ExtractPy.project axA (3, 4) = .ok v :=
      ⟨_, project_eq_of_l2_ne_zero _ _ hA⟩
    obtain ⟨vB, hpB⟩ : ∃ v, ExtractPy.project axB (3, 4) = .ok v :=
      ⟨_, project_eq_of_l2_ne_zero _ _ hB⟩
    have hext : ExtractPy.extract dupData [axA, axB] "" = .ok [(axA.name, [vA, vB])] :=
      extract_point_dup_col axA axB 3 4 vA vB "p" none [dupLine1, dupLine2]
        (by intro it hit; fin_cases hit <;> simp [dupLine1, dupLine2])
        rfl hpA hpB
    rw [hax]
    show (ExtractPy.extract dupData [axA, axB] "").map
        (fun col => col.map (fun p => (p.1, p.2.length))) = .ok [("X", 2)]
    rw [hext]
    rfl

/-- C5 amended: the parser keeps both same-named calibrations (no
deduplication), but the output dict is keyed by name, so the two calibrations
share one output column, which receives one value per calibration (two values)
for each qualifying point. -/
theorem c5_amended :
    (∀ (na1 nb1 na2 nb2 s1 s2 nm : String) (x0 y0 x1 y1 x2 y2 x3 y3 : ℝ)
        (t1 t2 : Option (List String)) (qa1 qb1 qa2 qb2 : ℚ),
      axisMatch s1 = some (nm, na1, nb1, false) → pyfloatQ na1 = some qa1 →
      pyfloatQ nb1 = some qb1 →
      axisMatch s2 = some (nm, na2, nb2, false) → pyfloatQ na2 = some qa2 →
      pyfloatQ nb2 = some qb2 →
      (ExtractPy.getaxes [⟨"line", s1, .ln x0 y0 x1 y1, t1⟩, ⟨"line", s2, .ln x2 y2 x3 y3, t2⟩]).map
        (fun axs => axs.map ExtractPy.Axis.name) = .ok [nm, nm]) ∧
    (∀ (ax1 ax2 : ExtractPy.Axis) (x y : ℝ) (nm : String) (tags : Option (List String)),
      ax2.name = ax1.name → ax1.l2 ≠ 0 → ax2.l2 ≠ 0 →
      ∃ v1 v2, ExtractPy.project ax1 (x, y) = .ok v1 ∧ ExtractPy.project ax2 (x, y) = .ok v2 ∧
        ExtractPy.extract [⟨"point", nm, .pt x y, tags⟩] [ax1, ax2] "" =
          .ok [(ax1.name, [v1, v2])]) := by
  constructor
  · intro na1 nb1 na2 nb2 s1 s2 nm x0 y0 x1 y1 x2 y2 x3 y3 t1 t2 qa1 qb1 qa2 qb2
      h1 h2 h3 h4 h5 h6
    simp [ExtractPy.getaxes, h1, h2, h3, h4, h5, h6, ExtractPy.Axis.init]
    rfl
  · intro ax1 ax2 x y nm tags hname h1 h2
    refine ⟨_, _, project_eq_of_l2_ne_zero _ _ h1, project_eq_of_l2_ne_zero _ _ h2, ?_⟩
    exact extract_point_dup_col ax1 ax2 x y _ _ nm tags [] (by intro it hit; cases hit)
      hname (project_eq_of_l2_ne_zero _ _ h1) (project_eq_of_l2_ne_zero _ _ h2)

/-- Witness for C5 amended at the two concrete `X` axes and the point `(3,4)`. -/
theorem c5_witness :
    ((ExtractPy.getaxes [⟨"line", "X: 0 1", .ln 0 0 10 0, none⟩,
        ⟨"line", "X: 5 9", .ln 0 0 0 10, none⟩]).map
      (fun axs => axs.map ExtractPy.Axis.name) = .ok ["X", "X"]) ∧
    (∃ v1 v2, ExtractPy.project axA (3, 4) = .ok v1 ∧ ExtractPy.project axB (3, 4) = .ok v2 ∧
      ExtractPy.extract [⟨"point", "p", .pt 3 4, none⟩] [axA, axB] "" =
        .ok [(axA.name, [v1, v2])]) :=
  ⟨c5_amended.1 "0" "1" "5" "9" "X: 0 1" "X: 5 9" "X" 0 0 10 0 0 0 0 10 none none 0 1 5 9
      (by decide) (by decide) (by decide) (by decide) (by decide) (by decide),
   c5_amended.2 axA axB 3 4 "p" none rfl
      (by show sqLen ((0:ℝ), (0:ℝ)) (10, 0) ≠ 0; norm_num [sqLen])
      (by show sqLen ((0:ℝ), (0:ℝ)) (0, 10) ≠ 0; norm_num [sqLen])⟩

/-- C6 counterexample: a scale calibration from a zero-length line raises
`ZeroDivisionError` already in `Axis.__init__` of `measure.py`
(`self.unitperpx = self.physlen / self.l` with `l == 0`), so the calibration
object is not constructed and the failure is not deferred to use time. -/
theorem c6_counterexample :
    MeasurePy.Axis.init "S" (1, 2) (1, 2) 10 = .error .zeroDivisionError := by
  have h : Real.sqrt (sqLen ((1:ℝ), (2:ℝ)) (1, 2)) = 0 := by
    rw [show sqLen ((1:ℝ), (2:ℝ)) (1, 2) = 0 by norm_num [sqLen], Real.sqrt_zero]
  rw [MeasurePy.Axis.init, if_pos h]

/-- C6 amended: for axis calibrations (`extract.py`) a degenerate line still
constructs successfully and the division-by-zero arises only when the
projector is used; for scale calibrations (`measure.py`) the constructor
itself divides by the line length, so the division-by-zero arises at
construction time. -/
theorem c6_amended :
    (∀ (name : String) (r0 r1 : ℝ × ℝ) (a b : ℝ), sqLen r0 r1 = 0 →
      ∃ ax, ExtractPy.Axis.init name r0 r1 a b false = .ok ax ∧
        ∀ c : ℝ × ℝ, ExtractPy.project ax c = .error .zeroDivisionError) ∧
    (∀ (name : String) (r0 r1 : ℝ × ℝ) (physlen : ℝ), sqLen r0 r1 = 0 →
      MeasurePy.Axis.init name r0 r1 physlen = .error .zeroDivisionError) := by
  constructor
  · intro name r0 r1 a b h
    refine ⟨_, rfl, ?_⟩
    intro c
    rw [ExtractPy.project, if_pos h]
  · intro name r0 r1 physlen h
    rw [MeasurePy.Axis.init, if_pos (by rw [h, Real.sqrt_zero])]

/-- Witness for C6 amended at a concrete zero-length calibration line. -/
theorem c6_witness :
    (∃ ax, ExtractPy.Axis.init "D" (3, 3) (3, 3) 0 1 false = .ok ax ∧
      ExtractPy.project ax (0, 0) = .error .zeroDivisionError) ∧
    MeasurePy.Axis.init "D" (3, 3) (3, 3) 1 = .error .zeroDivisionError := by
  obtain ⟨ax, h1, h2⟩ := c6_amended.1 "D" (3, 3) (3, 3) 0 1 (by norm_num [sqLen])
  exact ⟨⟨ax, h1, h2 (0, 0)⟩, c6_amended.2 "D" (3, 3) (3, 3) 1 (by norm_num [sqLen])⟩

/-- Inserting into a sorted string list preserves membership. -/
theorem mem_insertStr {a s : String} {l : List String} :
    a ∈ insertStr s l ↔ a = s ∨ a ∈ l := by
  induction l with
  | nil => simp [insertStr]
  | cons t ts ih =>
    rw [insertStr]
    split_ifs with h
    · simp
    · simp only [List.mem_cons, ih]
      tauto

/-- Sorting preserves membership. -/
theorem mem_sortStrings {a : String} {l : List String} : a ∈ sortStrings l ↔ a ∈ l := by
  induction l with
  | nil => simp [sortStrings]
  | cons t ts ih =>
    show a ∈ insertStr t (sortStrings ts) ↔ _
    rw [mem_insertStr, ih]
    simp

/-- Insertion never yields the empty list. -/
theorem insertStr_ne_nil (s : String) (l : List String) : insertStr s l ≠ [] := by
  cases l with
  | nil => simp [insertStr]
  | cons t ts =>
    rw [insertStr]
    split_ifs <;> simp

/-- Sorting yields the empty list only for the empty list. -/
theorem sortStrings_eq_nil {l : List String} : sortStrings l = [] ↔ l = [] := by
  cases l with
  | nil => simp [sortStrings]
  | cons t ts =>
    simp only [List.cons_ne_nil, iff_false]
    exact insertStr_ne_nil t (sortStrings ts)

/-- Looking up a key that occurs in the dict succeeds with an entry of the dict. -/
theorem dget_of_mem_keys {α : Type} {k : String} {l : List (String × α)}
    (h : k ∈ l.map Prod.fst) : ∃ v, dget k l = some v ∧ (k, v) ∈ l := by
  induction l with
  | nil => simp at h
  | cons p ps ih =>
    obtain ⟨k1, v1⟩ := p
    by_cases hk : k1 = k
    · subst hk
      exact ⟨v1, by rw [dget, if_pos rfl], List.mem_cons_self _ _⟩
    · have h2 : k ∈ ps.map Prod.fst := by
        simp only [List.map_cons, List.mem_cons] at h
        rcases h with h | h
        · exact absurd h.symm hk
        · exact h
      obtain ⟨v, hv1, hv2⟩ := ih h2
      exact ⟨v, by rw [dget, if_neg hk]; exact hv1, List.mem_cons_of_mem _ hv2⟩

/-- With a non-empty column dict whose columns are all empty, `export` of
`extract.py` writes the header line and nothing else. -/
theorem exportCsv_header_only (fr : ℝ → String) (col : Col) (hne : col ≠ [])
    (hempty : ∀ p ∈ col, p.2 = []) :
    ExtractPy.exportCsv fr col = .ok (String.intercalate ","
      ((sortStrings (col.map (fun p => p.1))).map csv_sanitize) ++ "\n") := by
  rcases hk : sortStrings (col.map (fun p => p.1)) with _ | ⟨k0, ks⟩
  · exact absurd (List.map_eq_nil_iff.mp (sortStrings_eq_nil.mp hk)) hne
  · have hk0 : k0 ∈ col.map Prod.fst := by
      have : k0 ∈ sortStrings (col.map (fun p => p.1)) := by rw [hk]; exact List.mem_cons_self _ _
      simpa [mem_sortStrings] using this
    obtain ⟨v, hdget, hmem⟩ := dget_of_mem_keys hk0
    have hv : v = [] := hempty (k0, v) hmem
    subst hv
    rw [ExtractPy.exportCsv, hk]
    simp [hdget, String.join, List.mapM_nil, String.append_empty]
    simp [List.mapM.loop, pure, Except.pure, Except.map, String.append_empty]

/-- With a non-empty column dict whose columns are all empty, `export` of
`measure.py` writes the header line (with the `name` column) and nothing else. -/
theorem mexportCsv_header_only (fr : ℝ → String) (names : List String) (col : Col)
    (hne : col ≠ []) (hempty : ∀ p ∈ col, p.2 = []) :
    MeasurePy.exportCsv fr names col = .ok ("name" ++ "," ++ String.intercalate ","
      ((sortStrings (col.map (fun p => p.1))).map csv_sanitize) ++ "\n") := by
  rcases hk : sortStrings (col.map (fun p => p.1)) with _ | ⟨k0, ks⟩
  · exact absurd (List.map_eq_nil_iff.mp (sortStrings_eq_nil.mp hk)) hne
  · have hk0 : k0 ∈ col.map Prod.fst := by
      have : k0 ∈ sortStrings (col.map (fun p => p.1)) := by rw [hk]; exact List.mem_cons_self _ _
      simpa [mem_sortStrings] using this
    obtain ⟨v, hdget, hmem⟩ := dget_of_mem_keys hk0
    have hv : v = [] := hempty (k0, v) hmem
    subst hv
    rw [MeasurePy.exportCsv, hk]
    simp [hdget, String.join, List.mapM_nil, String.append_empty]
    simp [List.mapM.loop, pure, Except.pure, Except.map, String.append_empty]

/-- C7 counterexample: an input with one axis calibration line and no points
yields a non-empty export: the header row `"X\n"` is written even though there
are no data rows, contradicting "completely empty: no header row". -/
theorem c7_counterexample :
    ExtractPy.getaxes [dupLine1] = .ok [axA] ∧
    ExtractPy.extract [dupLine1] [axA] "" = .ok [("X", [])] ∧
    ExtractPy.exportCsv (fun _ => "") [("X", [])] = .ok "X\n" ∧
    "X\n" ≠ "" :=
  ⟨rfl, rfl, rfl, by decide⟩

/-- C7 amended: with no calibrations at all the export is completely empty;
with calibrations but no qualifying points/lines, a header row of the sorted
sanitized column names is still written (plus the `name` column for pipeline
B), followed by no data rows. -/
theorem c7_amended :
    (∀ fr : ℝ → String, ExtractPy.exportCsv fr [] = .ok "") ∧
    (∀ (fr : ℝ → String) (col : Col), col ≠ [] → (∀ p ∈ col, p.2 = []) →
      ExtractPy.exportCsv fr col = .ok (String.intercalate ","
        ((sortStrings (col.map (fun p => p.1))).map csv_sanitize) ++ "\n")) ∧
    (∀ (fr : ℝ → String) (names : List String), MeasurePy.exportCsv fr names [] = .ok "") ∧
    (∀ (fr : ℝ → String) (names : List String) (col : Col), col ≠ [] →
      (∀ p ∈ col, p.2 = []) →
      MeasurePy.exportCsv fr names col = .ok ("name" ++ "," ++ String.intercalate ","
        ((sortStrings (col.map (fun p => p.1))).map csv_sanitize) ++ "\n")) :=
  ⟨fun _ => rfl, exportCsv_header_only, fun _ _ => rfl, mexportCsv_header_only⟩

/-- Witness for C7 amended at concrete empty and header-only inputs. -/
theorem c7_witness :
    ExtractPy.exportCsv (fun _ => "") [] = .ok "" ∧
    ExtractPy.exportCsv (fun _ => "") [("X", [])] = .ok (String.intercalate ","
      ((sortStrings ([(("X" : String), ([] : List ℝ))].map (fun p => p.1))).map csv_sanitize) ++ "\n") ∧
    MeasurePy.exportCsv (fun _ => "") [] [] = .ok "" ∧
    MeasurePy.exportCsv (fun _ => "") [] [("Y", [])] = .ok ("name" ++ "," ++ String.intercalate ","
      ((sortStrings ([(("Y" : String), ([] : List ℝ))].map (fun p => p.1))).map csv_sanitize) ++ "\n") :=
  ⟨c7_amended.1 _,
   c7_amended.2.1 _ _ (by simp) (by simp),
   c7_amended.2.2.1 _ _,
   c7_amended.2.2.2 _ _ _ (by simp) (by simp)⟩

/-- Assigning a fresh key appends the entry at the end of the dict. -/
theorem dinsert_fresh {α : Type} (k : String) (v : α) (d : List (String × α))
    (h : k ∉ d.map Prod.fst) : dinsert k v d = d ++ [(k, v)] := by
  induction d with
  | nil => rfl
  | cons p ps ih =>
    obtain ⟨k1, v1⟩ := p
    simp only [List.map_cons, List.mem_cons, not_or] at h
    rw [dinsert, if_neg (fun he => h.1 he.symm), ih h.2, List.cons_append]

/-- With pairwise distinct names the dict comprehension of `measure.py` lists
one empty column per scale, in scale order. -/
theorem initCol_fold_nodup (scales : List MeasurePy.Axis) (d : Col)
    (hnd : (scales.map MeasurePy.Axis.name).Nodup)
    (hdisj : ∀ sc ∈ scales, sc.name ∉ d.map Prod.fst) :
    scales.foldl (fun d sc => dinsert sc.name [] d) d =
      d ++ scales.map (fun sc => (sc.name, [])) := by
  induction scales generalizing d with
  | nil => simp
  | cons sc scs ih =>
    rw [List.foldl_cons, dinsert_fresh _ _ _ (hdisj sc (List.mem_cons_self _ _))]
    rw [List.map_cons] at hnd
    have hnd2 := hnd.of_cons
    have hhead : sc.name ∉ scs.map MeasurePy.Axis.name := by
      intro hmem
      exact (List.nodup_cons.mp hnd).1 hmem
    rw [ih (d ++ [(sc.name, [])]) hnd2 ?_]
    · simp
    · intro sc2 h2
      simp only [List.map_append, List.mem_append, List.map_cons, List.map_nil,
        List.mem_singleton, not_or]
      refine ⟨hdisj sc2 (List.mem_cons_of_mem _ h2), fun he => ?_⟩
      exact hhead (he ▸ List.mem_map_of_mem MeasurePy.Axis.name h2)

/-- `initCol` for scales with pairwise distinct names. -/
theorem initCol_nodup (scales : List MeasurePy.Axis)
    (hnd : (scales.map MeasurePy.Axis.name).Nodup) :
    MeasurePy.initCol scales = scales.map (fun sc => (sc.name, [])) := by
  have := initCol_fold_nodup scales [] hnd (by simp)
  simpa [MeasurePy.initCol] using this

/-- Appending to a key found once in the dict updates exactly that entry. -/
theorem dappend_found {α : Type} (k : String) (x : α) (pre post : List (String × List α))
    (l : List α) (hpre : k ∉ pre.map Prod.fst) :
    dappend k x (pre ++ (k, l) :: post) = some (pre ++ (k, l ++ [x]) :: post) := by
  induction pre with
  | nil => rw [List.nil_append, dappend, if_pos rfl]; rfl
  | cons p ps ih =>
    obtain ⟨k1, v1⟩ := p
    simp only [List.map_cons, List.mem_cons, not_or] at hpre
    rw [List.cons_append, dappend, if_neg (fun he => hpre.1 he.symm), ih hpre.2]
    rfl

/-- The scale loop of `measure.py` appends one measured value to every scale's
column when the scale names are pairwise distinct. -/
theorem measureGo_map (x0 y0 x1 y1 : ℝ) (scales : List MeasurePy.Axis)
    (g : MeasurePy.Axis → List ℝ) (pre : Col)
    (hnd : (scales.map MeasurePy.Axis.name).Nodup)
    (hdisj : ∀ sc ∈ scales, sc.name ∉ pre.map Prod.fst) :
    MeasurePy.measureGo x0 y0 x1 y1 scales
        (pre ++ scales.map (fun sc => (sc.name, g sc))) =
      some (pre ++ scales.map (fun sc =>
        (sc.name, g sc ++ [MeasurePy.lineLen x0 y0 x1 y1 * sc.unitperpx]))) := by
  induction scales generalizing pre with
  | nil => simp [MeasurePy.measureGo]
  | cons sc scs ih =>
    have hhead : sc.name ∉ scs.map MeasurePy.Axis.name := by
      rw [List.map_cons] at hnd
      exact (List.nodup_cons.mp hnd).1
    have hnd2 : (scs.map MeasurePy.Axis.name).Nodup := by
      rw [List.map_cons] at hnd
      exact hnd.of_cons
    rw [List.map_cons, MeasurePy.measureGo,
      dappend_found sc.name _ pre _ (g sc) (hdisj sc (List.mem_cons_self _ _))]
    have hstep : pre ++ (sc.name, g sc ++ [MeasurePy.lineLen x0 y0 x1 y1 * sc.unitperpx]) ::
        scs.map (fun sc => (sc.name, g sc)) =
        (pre ++ [(sc.name, g sc ++ [MeasurePy.lineLen x0 y0 x1 y1 * sc.unitperpx])]) ++
          scs.map (fun sc => (sc.name, g sc)) := by
      simp
    rw [hstep]
    dsimp only
    rw [ih (pre ++ [(sc.name, g sc ++ [MeasurePy.lineLen x0 y0 x1 y1 * sc.unitperpx])])
      hnd2 ?_]
    · simp
    · intro sc2 h2
      simp only [List.map_append, List.mem_append, List.map_cons, List.map_nil,
        List.mem_singleton, not_or]
      refine ⟨hdisj sc2 (List.mem_cons_of_mem _ h2), fun he => ?_⟩
      exact hhead (he ▸ List.mem_map_of_mem MeasurePy.Axis.name h2)

/-- C8: in pipeline B a line whose name matches the calibration grammar is not
excluded from the measurement pass: when it passes the tag filter its name is
recorded and its length is measured against every scale calibration, exactly
like an ordinary data line. -/
theorem c8_calibration_line_measured (nm : String) (x0 y0 x1 y1 : ℝ)
    (tags : Option (List String)) (scales : List MeasurePy.Axis)
    (hmatch : (scaleMatch nm).isSome = true)
    (hnd : (scales.map MeasurePy.Axis.name).Nodup) :
    MeasurePy.extract [⟨"line", nm, .ln x0 y0 x1 y1, tags⟩] scales "" =
      .ok ([nm], scales.map (fun sc =>
        (sc.name, [MeasurePy.lineLen x0 y0 x1 y1 * sc.unitperpx]))) := by
  have hinit := initCol_nodup scales hnd
  have hgo := measureGo_map x0 y0 x1 y1 scales (fun _ => []) [] hnd (by simp)
  simp only [List.nil_append] at hgo
  simp [MeasurePy.extract, MeasurePy.extractGo, tagSkip, hinit, hgo]

/-- Witness for C8: the scale line `"S: 10"` itself, measured against the
scale it defines. -/
theorem c8_witness :
    MeasurePy.extract [⟨"line", "S: 10", .ln 0 0 3 4, none⟩] [scS] "" =
      .ok (["S: 10"], [scS].map (fun sc =>
        (sc.name, [MeasurePy.lineLen 0 0 3 4 * sc.unitperpx]))) :=
  c8_calibration_line_measured "S: 10" 0 0 3 4 none [scS] (by decide) (by simp)

/-- C9 counterexample: in pipeline B a recorded line name containing a comma
is written raw into the data row, not wrapped in double quotes: the export of
names `["a,b"]` emits the row `a,b,1.0` rather than `"a,b",1.0`. -/
theorem c9_counterexample :
    csv_sanitize "a,b" = "\"a,b\"" ∧
    MeasurePy.exportCsv (fun _ => "1.0") ["a,b"] [("S", [(0:ℝ)])] = .ok "name,S\na,b,1.0\n" ∧
    "name,S\na,b,1.0\n" ≠ "name,S\n" ++ csv_sanitize "a,b" ++ ",1.0\n" :=
  ⟨by decide, rfl, by decide⟩

/-- C9 amended: header column names containing a comma are wrapped in double
quotes (and no other escaping is applied), in both pipelines; but the per-row
line names in pipeline B's prepended `name` column are written raw, without
any quoting. -/
theorem c9_amended :
    (∀ s : String, s.toList.contains ',' = true → csv_sanitize s = "\"" ++ s ++ "\"") ∧
    (∀ s : String, s.toList.contains ',' = false → csv_sanitize s = s) ∧
    (∀ (fr : ℝ → String) (k : String) (x : ℝ),
      ExtractPy.exportCsv fr [(k, [x])] = .ok (csv_sanitize k ++ "\n" ++ fr x ++ "\n")) ∧
    (∀ (fr : ℝ → String) (nm k : String) (x : ℝ),
      MeasurePy.exportCsv fr [nm] [(k, [x])] =
        .ok ("name" ++ "," ++ csv_sanitize k ++ "\n" ++ nm ++ "," ++ fr x ++ "\n")) := by
  refine ⟨?_, ?_, ?_, ?_⟩
  · intro s h
    rw [csv_sanitize, if_pos h]
  · intro s h
    rw [csv_sanitize, if_neg (by rw [h]; simp)]
  · intro fr k x
    simp [ExtractPy.exportCsv, ExtractPy.rowStr, cellStr, dget, sortStrings, insertStr,
      String.intercalate, String.join, List.mapM.loop, pure, Except.pure, Except.map,
      String.append_assoc, String.append_empty]
    rfl
  · intro fr nm k x
    simp [MeasurePy.exportCsv, MeasurePy.rowStr, cellStr, dget, sortStrings, insertStr,
      String.intercalate, String.join, List.mapM.loop, pure, Except.pure, Except.map,
      String.append_assoc, String.append_empty]
    rfl

/-- Witness for C9 amended at concrete comma and comma-free fields. -/
theorem c9_witness :
    csv_sanitize "a,b" = "\"" ++ "a,b" ++ "\"" ∧
    csv_sanitize "xy" = "xy" ∧
    ExtractPy.exportCsv (fun _ => "2.0") [("p,q", [(0:ℝ)])] =
      .ok (csv_sanitize "p,q" ++ "\n" ++ "2.0" ++ "\n") ∧
    MeasurePy.exportCsv (fun _ => "2.0") ["ln1"] [("S", [(0:ℝ)])] =
      .ok ("name" ++ "," ++ csv_sanitize "S" ++ "\n" ++ "ln1" ++ "," ++ "2.0" ++ "\n") :=
  ⟨c9_amended.1 "a,b" (by decide), c9_amended.2.1 "xy" (by decide),
   c9_amended.2.2.1 _ "p,q" 0, c9_amended.2.2.2 _ "ln1" "S" 0⟩

/-- With the empty tag filter the point loop of `extract.py` never reads the
`tags` field: erasing all tags does not change the result. -/
theorem extractGo_strip (axes : List ExtractPy.Axis) (data : List Item) :
    ∀ col, ExtractPy.extractGo axes "" (data.map stripTags) col =
      ExtractPy.extractGo axes "" data col := by
  induction data with
  | nil => intro col; rfl
  | cons it rest ih =>
    intro col
    obtain ⟨ty, nm, co, tg⟩ := it
    rw [List.map_cons]
    by_cases hty : ty = "point"
    · subst hty
      simp only [stripTags, ExtractPy.extractGo, tagSkip, if_pos rfl, reduceIte]
      cases co with
      | pt x y =>
        cases hp : ExtractPy.projPoint (x, y) axes col with
        | error e => simp [hp]
        | ok col1 => simp [hp, ih col1]
      | ln x0 y0 x1 y1 => rfl
    · simp only [stripTags, ExtractPy.extractGo, if_neg hty]
      exact ih col

/-- With the empty tag filter the line loop of `measure.py` never reads the
`tags` field. -/
theorem mextractGo_strip (scales : List MeasurePy.Axis) (data : List Item) :
    ∀ acc, MeasurePy.extractGo scales "" (data.map stripTags) acc =
      MeasurePy.extractGo scales "" data acc := by
  induction data with
  | nil => intro acc; rfl
  | cons it rest ih =>
    intro acc
    obtain ⟨ty, nm, co, tg⟩ := it
    rw [List.map_cons]
    by_cases hty : ty = "line"
    · subst hty
      simp only [stripTags, MeasurePy.extractGo, tagSkip, if_pos rfl, reduceIte]
      cases co with
      | pt x y => rfl
      | ln x0 y0 x1 y1 =>
        cases hm : MeasurePy.measureGo x0 y0 x1 y1 scales acc.2 with
        | none => simp [hm]
        | some col1 => simp [hm, ih (acc.1 ++ [nm], col1)]
    · simp only [stripTags, MeasurePy.extractGo, if_neg hty]
      exact ih acc

/-- C10: with a non-empty tag filter both extractors read the `tags` field of
every type-matching record before deciding to skip it, so a type-matching
record without a `tags` field raises `KeyError`; with the default empty tag
the `tags` field is never read (erasing all tags changes nothing). -/
theorem c10_tag_filter :
    (∀ (tag nm : String) (co : Coords) (rest : List Item) (axes : List ExtractPy.Axis),
      tag ≠ "" →
      ExtractPy.extract (⟨"point", nm, co, none⟩ :: rest) axes tag = .error .keyError) ∧
    (∀ (tag nm : String) (co : Coords) (rest : List Item) (scales : List MeasurePy.Axis),
      tag ≠ "" →
      MeasurePy.extract (⟨"line", nm, co, none⟩ :: rest) scales tag = .error .keyError) ∧
    (∀ (data : List Item) (axes : List ExtractPy.Axis),
      ExtractPy.extract (data.map stripTags) axes "" = ExtractPy.extract data axes "") ∧
    (∀ (data : List Item) (scales : List MeasurePy.Axis),
      MeasurePy.extract (data.map stripTags) scales "" = MeasurePy.extract data scales "") := by
  refine ⟨?_, ?_, ?_, ?_⟩
  · intro tag nm co rest axes htag
    simp [ExtractPy.extract, ExtractPy.extractGo, tagSkip, htag]
  · intro tag nm co rest scales htag
    simp [MeasurePy.extract, MeasurePy.extractGo, tagSkip, htag]
  · intro data axes
    exact extractGo_strip axes data _
  · intro data scales
    exact mextractGo_strip scales data _

/-- Witness for C10 at concrete tagged and untagged records. -/
theorem c10_witness :
    ExtractPy.extract [⟨"point", "p", .pt 1 2, none⟩] [] "T" = .error .keyError ∧
    MeasurePy.extract [⟨"line", "m", .ln 0 0 1 1, none⟩] [] "T" = .error .keyError ∧
    ExtractPy.extract ([⟨"point", "p", .pt 1 2, some ["T"]⟩].map stripTags) [] "" =
      ExtractPy.extract [⟨"point", "p", .pt 1 2, some ["T"]⟩] [] "" ∧
    MeasurePy.extract ([⟨"line", "m", .ln 0 0 1 1, some ["T"]⟩].map stripTags) [] "" =
      MeasurePy.extract [⟨"line", "m", .ln 0 0 1 1, some ["T"]⟩] [] "" :=
  ⟨c10_tag_filter.1 "T" "p" (.pt 1 2) [] [] (by decide),
   c10_tag_filter.2.1 "T" "m" (.ln 0 0 1 1) [] [] (by decide),
   c10_tag_filter.2.2.1 _ _,
   c10_tag_filter.2.2.2 _ _⟩
